import Mathlib

/-!
Verification of pywwb (Windows Without Borders), a tool that finds top-level
windows whose titles match user-supplied regular expressions and forces them
into borderless-fullscreen mode.

The development shallowly embeds `src/pywwb.py`.  The Win32 desktop is
modelled as a list of windows (handle, visibility, title, style bitset,
bounding rectangle, optional menu) together with a list of monitors.  The
Win32 API calls used by the script (`EnumWindows`, `IsWindowVisible`,
`GetWindowText`, `MonitorFromWindow`/`GetMonitorInfo`, `SetWindowLong`,
`SetWindowPos`, `SetMenu`) are modelled as operations on that state; the
behaviour of `MonitorFromWindow(hwnd, MONITOR_DEFAULTTONEAREST)` is not part
of the repository, so it is modelled from the spec.  Regular-expression
matching is modelled for literal (metacharacter-free) patterns, where
`re.Pattern.search` is a substring test, optionally case-folded under `re.I`.
-/

namespace Pywwb

/-! ## Win32 style constants (win32con) -/

def WS_VISIBLE : Nat := 0x10000000
def WS_POPUP : Nat := 0x80000000
def WS_CLIPCHILDREN : Nat := 0x02000000

/-- src/pywwb.py line 24: `BORDERLESS_STYLE = con.WS_VISIBLE | con.WS_POPUP | con.WS_CLIPCHILDREN`. -/
def BORDERLESS_STYLE : Nat := WS_VISIBLE ||| WS_POPUP ||| WS_CLIPCHILDREN

/-! ## Data model of the desktop -/

/-- A Win32 RECT: left, top, right, bottom in desktop (virtual-screen) coordinates. -/
structure Rect where
  left : Int
  top : Int
  right : Int
  bottom : Int
deriving Repr, DecidableEq

/-- One top-level window as seen through the Win32 calls the script uses. -/
structure Window where
  hwnd : Nat
  visible : Bool
  title : String
  style : Nat
  rect : Rect
  menu : Option Nat
deriving Repr, DecidableEq

/-- One physical display device: the `"Monitor"` rectangle returned by `GetMonitorInfo`. -/
structure Monitor where
  rect : Rect
deriving Repr, DecidableEq

/-! ## Patterns (`re.compile(pat, re.I if args.case_insensitive else 0)`)

A compiled pattern is modelled for literal (metacharacter-free) pattern text:
`pattern.search(title)` is then exactly a substring test, case-folded when the
pattern was compiled with `re.I`. -/

/-- A compiled literal pattern: the raw text plus whether `re.I` was passed. -/
structure Pattern where
  raw : String
  ignoreCase : Bool
deriving Repr, DecidableEq

/-- Does `needle` occur as a contiguous run inside `hay`? -/
def subSearch (needle : List Char) : List Char → Bool
  | [] => needle.isEmpty
  | c :: t => needle.isPrefixOf (c :: t) || subSearch needle t

/-- ASCII lower-casing of one character (the case folding `re.I` performs on
ASCII pattern and title text). -/
def lowerChar (c : Char) : Char :=
  if 65 ≤ c.toNat ∧ c.toNat ≤ 90 then Char.ofNat (c.toNat + 32) else c

/-- ASCII lower-casing of a character sequence. -/
def lowerList (l : List Char) : List Char := l.map lowerChar

/-- `pattern.search(title)` for a literal pattern: substring search, case-folded under `re.I`. -/
def Pattern.search (p : Pattern) (title : String) : Bool :=
  if p.ignoreCase then subSearch (lowerList p.raw.toList) (lowerList title.toList)
  else subSearch p.raw.toList title.toList

/-- src/pywwb.py line 34: `any(pattern.search(title) for pattern in patterns)`. -/
def matchesAny (patterns : List Pattern) (title : String) : Bool :=
  patterns.any (fun pattern => pattern.search title)

/-- src/pywwb.py line 77: `[re.compile(pat, re.I if args.case_insensitive else 0) for pat in args.patterns]`. -/
def buildPatternSet (rawPatterns : List String) (caseInsensitive : Bool) : List Pattern :=
  rawPatterns.map (fun pat => { raw := pat, ignoreCase := caseInsensitive })

/-! ## get_windows (src/pywwb.py lines 27-43)

`EnumWindows` visits the desktop's top-level windows in order and calls the
callback on each handle.  The callback appends matching visible windows to
the closure-captured `windows` list and, when `all_matches` is false, raises
`StopIteration` after the first match; the raise aborts the enumeration and
propagates out of `EnumWindows`, where `get_windows` catches exactly
`StopIteration`.  The mutation of `windows` survives the exception, so the
enumeration result is the accumulated list in every case. -/

/-- A Python exception escaping the enumeration callback. -/
inductive PyExc where
  | stopIteration
  | otherExc
deriving Repr, DecidableEq

/-- `gui.EnumWindows(_callback, None)` with the closure of src/pywwb.py lines 31-37:
returns the accumulated `windows` list together with the exception, if any,
that aborted the enumeration. -/
def enumWindowsAux (patterns : List Pattern) (allMatches : Bool) :
    List Window → List Nat → List Nat × Option PyExc
  | [], windows => (windows, none)
  | w :: ws, windows =>
    if w.visible then
      if matchesAny patterns w.title then
        let windows := windows ++ [w.hwnd]
        if allMatches then enumWindowsAux patterns allMatches ws windows
        else (windows, some PyExc.stopIteration)
      else enumWindowsAux patterns allMatches ws windows
    else enumWindowsAux patterns allMatches ws windows

/-- src/pywwb.py lines 27-43, `get_windows`: runs the enumeration inside
`try: ... except StopIteration: pass` and returns `windows`; any other
exception would propagate to the caller. -/
def get_windows (patterns : List Pattern) (allMatches : Bool) (desktop : List Window) :
    Except PyExc (List Nat) :=
  match enumWindowsAux patterns allMatches desktop [] with
  | (windows, none) => .ok windows
  | (windows, some PyExc.stopIteration) => .ok windows
  | (_, some e) => .error e

/-- The list `get_windows` returns (it never raises; see `get_windows_total`). -/
def getWindowsList (patterns : List Pattern) (allMatches : Bool) (desktop : List Window) :
    List Nat :=
  (enumWindowsAux patterns allMatches desktop []).1

/-! ## Monitor resolution (src/pywwb.py lines 46-47)

`get_monitor` calls `api.GetMonitorInfo(api.MonitorFromWindow(hwnd,
con.MONITOR_DEFAULTTONEAREST))`.  `MonitorFromWindow` is a Win32 facility,
not code of this repository, so it is modelled from the spec. -/

/-- Does the rectangle contain the point (x, y)? -/
def containsPt (r : Rect) (x y : Int) : Bool :=
  decide (r.left ≤ x) && decide (x < r.right) && decide (r.top ≤ y) && decide (y < r.bottom)

/-- Squared distance from the point (x, y) to the rectangle (0 when inside). -/
def ptDist (r : Rect) (x y : Int) : Int :=
  let dx := max 0 (max (r.left - x) (x - (r.right - 1)))
  let dy := max 0 (max (r.top - y) (y - (r.bottom - 1)))
  dx * dx + dy * dy

/-- The monitor whose rectangle is nearest to the point (x, y). -/
def nearestMonitor : List Monitor → Int → Int → Option Monitor
  | [], _, _ => none
  | m :: ms, x, y =>
    match nearestMonitor ms x y with
    | none => some m
    | some m' => if ptDist m.rect x y ≤ ptDist m'.rect x y then some m else some m'

/-- Modelled from the spec: `MonitorFromWindow(hwnd, MONITOR_DEFAULTTONEAREST)`
(a Win32 call, absent from the repository) determines "the physical monitor
whose bounds contain (or are nearest to) the window's current position".
Returns the monitor containing the window's position, else the nearest one;
`none` only when no display device exists. -/
def monitorFromWindow (monitors : List Monitor) (r : Rect) : Option Monitor :=
  match monitors.find? (fun m => containsPt m.rect r.left r.top) with
  | some m => some m
  | none => nearestMonitor monitors r.left r.top

/-! ## FullscreenTransitioner (src/pywwb.py lines 51-73) -/

/-- The per-window failure kinds of a transition. -/
inductive Win32Error where
  | notFound
  | monitorResolutionFailure
  | mutationRejected
deriving Repr, DecidableEq

/-- `gui.SetWindowPos(hwnd, HWND_TOP, x, y, cx, cy, SWP_FRAMECHANGED | SWP_SHOWWINDOW)`:
moves the window to (x, y) in desktop coordinates and resizes it to cx by cy. -/
def setWindowPos (w : Window) (x y cx cy : Int) : Window :=
  { w with rect := { left := x, top := y, right := x + cx, bottom := y + cy } }

/-- src/pywwb.py lines 46-47, `get_monitor`:
`api.GetMonitorInfo(api.MonitorFromWindow(hwnd, con.MONITOR_DEFAULTTONEAREST))`.
`GetMonitorInfo` packages the monitor's rectangle as the `"Monitor"` entry. -/
def get_monitor (monitors : List Monitor) (w : Window) : Option Monitor :=
  monitorFromWindow monitors w.rect

/-- src/pywwb.py lines 51-58, `strip_decorations`: `gui.SetMenu(hwnd, None)`
removes the window's menu; with no menu present it is a no-op. -/
def strip_decorations (w : Window) : Window :=
  { w with menu := none }

/-- src/pywwb.py lines 61-73, `make_fullscreen`, acting on one window.  In
source order: `SetWindowLong(hwnd, GWL_STYLE, BORDERLESS_STYLE)` (line 63),
then `width, height = get_monitor(hwnd)["Monitor"][2:]` (line 64) — note that
this binds the monitor rectangle's right and bottom edges, and that the
monitor is resolved after the style write — then
`SetWindowPos(hwnd, HWND_TOP, 0, 0, width, height, ...)` (lines 65-73). -/
def make_fullscreen (monitors : List Monitor) (w : Window) : Except Win32Error Window :=
  let w := { w with style := BORDERLESS_STYLE }
  match get_monitor monitors w with
  | none => .error .monitorResolutionFailure
  | some m =>
    let width := m.rect.right
    let height := m.rect.bottom
    .ok (setWindowPos w 0 0 width height)

/-- The window-manager calls `make_fullscreen` performs, in program order. -/
inductive Event where
  | setStyle
  | resolveMonitor
  | setGeometry
deriving Repr, DecidableEq

/-- The trace of window-manager operations performed by `make_fullscreen`
(src/pywwb.py lines 61-73), in source order: the style write on line 63
precedes the monitor query on line 64, which precedes the geometry write on
lines 65-73; on a monitor-resolution failure the geometry write is never
reached. -/
def make_fullscreen_trace (monitors : List Monitor) (w : Window) : List Event :=
  let w := { w with style := BORDERLESS_STYLE }
  match get_monitor monitors w with
  | none => [Event.setStyle, Event.resolveMonitor]
  | some _ => [Event.setStyle, Event.resolveMonitor, Event.setGeometry]

/-! ## The driver (src/pywwb.py lines 76-83)

`main` compiles the patterns, enumerates matching handles, prints them, and
runs `for window in matches: make_fullscreen(window)`.  The loop body has no
exception handling: a pywin32 error raised for one window (e.g. a stale
handle) propagates and aborts the loop.  `args.remove_decorations` (the `-d`
flag, src/pywwb.py lines 127-132) is parsed but never consulted;
`strip_decorations` has no caller. -/

/-- The parsed command-line arguments (src/pywwb.py lines 90-132). -/
structure Args where
  patterns : List String
  all_matches : Bool
  case_insensitive : Bool
  monitor : Int
  remove_decorations : Bool
deriving Repr, DecidableEq

/-- Looks up a live window by handle; `none` models a stale handle, on which
every pywin32 mutation call raises. -/
def findWindow (desktop : List Window) (hwnd : Nat) : Option Window :=
  desktop.find? (fun w => w.hwnd == hwnd)

/-- Replaces the window with the given handle. -/
def updateWindow (desktop : List Window) (hwnd : Nat) (w' : Window) : List Window :=
  desktop.map (fun w => if w.hwnd == hwnd then w' else w)

/-- `make_fullscreen(window)` as a desktop-state transformer: a stale handle
fails with `notFound`; otherwise the per-window transition runs and the
desktop is updated. -/
def make_fullscreen_hwnd (monitors : List Monitor) (desktop : List Window) (hwnd : Nat) :
    Except Win32Error (List Window) :=
  match findWindow desktop hwnd with
  | none => .error .notFound
  | some w =>
    match make_fullscreen monitors w with
    | .error e => .error e
    | .ok w' => .ok (updateWindow desktop hwnd w')

/-- src/pywwb.py lines 80-81: `for window in matches: make_fullscreen(window)`.
Returns the final desktop plus the first uncaught exception, if any; once an
exception is raised the remaining handles are not processed. -/
def transitionAll (monitors : List Monitor) :
    List Nat → List Window → List Window × Option Win32Error
  | [], desktop => (desktop, none)
  | hwnd :: rest, desktop =>
    match make_fullscreen_hwnd monitors desktop hwnd with
    | .error e => (desktop, some e)
    | .ok desktop' => transitionAll monitors rest desktop'

/-- src/pywwb.py lines 76-83, `main`: compile the patterns, enumerate the
matching handles, then transition each in turn.  Nothing in the body reads
`args.remove_decorations`, and `strip_decorations` is never called. -/
def main (args : Args) (desktop : List Window) (monitors : List Monitor) :
    List Window × Option Win32Error :=
  let patterns := buildPatternSet args.patterns args.case_insensitive
  let matched := getWindowsList patterns args.all_matches desktop
  transitionAll monitors matched desktop

/-! ## Concrete fixtures

A two-monitor desktop: the primary monitor at the origin and a smaller
secondary monitor to its right, plus windows used to exercise the claims. -/

/-- The primary monitor, 1920 by 1080 at the desktop origin. -/
def monPrimary : Monitor := { rect := { left := 0, top := 0, right := 1920, bottom := 1080 } }

/-- A secondary 800 by 600 monitor to the right of the primary. -/
def monSec : Monitor := { rect := { left := 2000, top := 0, right := 2800, bottom := 600 } }

/-- A two-monitor configuration. -/
def mons2 : List Monitor := [monPrimary, monSec]

/-- A visible window titled "Game" sitting on the secondary monitor, with a menu. -/
def wSec : Window :=
  { hwnd := 1, visible := true, title := "Game", style := 7,
    rect := { left := 2100, top := 100, right := 2740, bottom := 580 }, menu := some 5 }

/-- A visible window titled "Game" on the primary monitor, no menu. -/
def wOther : Window :=
  { hwnd := 2, visible := true, title := "Game", style := 7,
    rect := { left := 10, top := 10, right := 200, bottom := 200 }, menu := none }

/-- `wSec` after one `make_fullscreen` on `mons2`: borderless style, moved to the
absolute origin and sized by the secondary monitor's right/bottom edges. -/
def wAfter1 : Window :=
  { hwnd := 1, visible := true, title := "Game", style := BORDERLESS_STYLE,
    rect := { left := 0, top := 0, right := 2800, bottom := 600 }, menu := some 5 }

/-- `wAfter1` after a second `make_fullscreen` on `mons2`: its origin now lies on
the primary monitor, so it is resized by the primary monitor's edges. -/
def wAfter2 : Window :=
  { hwnd := 1, visible := true, title := "Game", style := BORDERLESS_STYLE,
    rect := { left := 0, top := 0, right := 1920, bottom := 1080 }, menu := some 5 }

/-- A case-sensitive literal pattern set for the title text "Game". -/
def ps1 : List Pattern := [{ raw := "Game", ignoreCase := false }]

/-- A driver invocation: pattern "Game", all matches, case-sensitive, with `-d`. -/
def argsD : Args :=
  { patterns := ["Game"], all_matches := true, case_insensitive := false,
    monitor := 0, remove_decorations := true }

/-! ## Enumeration lemmas -/

/-- The enumeration callback can only raise `StopIteration`, never any other
exception. -/
lemma enumWindowsAux_ne_other (patterns : List Pattern) (allMatches : Bool) :
    ∀ (desktop : List Window) (acc : List Nat),
      (enumWindowsAux patterns allMatches desktop acc).2 ≠ some PyExc.otherExc := by
  intro desktop
  induction desktop with
  | nil => intro acc; simp [enumWindowsAux]
  | cons w ws ih =>
    intro acc
    by_cases hv : w.visible
    · by_cases hm : matchesAny patterns w.title
      · by_cases ha : allMatches
        · simpa [enumWindowsAux, hv, hm, ha] using ih _
        · simp [enumWindowsAux, hv, hm, ha]
      · simpa [enumWindowsAux, hv, hm] using ih _
    · simpa [enumWindowsAux, hv] using ih _

/-- `get_windows` always returns its accumulated list: the `StopIteration`
raised under first-match mode is caught by the surrounding `try`. -/
lemma get_windows_eq_ok (patterns : List Pattern) (allMatches : Bool)
    (desktop : List Window) :
    get_windows patterns allMatches desktop =
      Except.ok (getWindowsList patterns allMatches desktop) := by
  have h := enumWindowsAux_ne_other patterns allMatches desktop []
  unfold get_windows getWindowsList
  rcases hE : enumWindowsAux patterns allMatches desktop [] with ⟨ws, exc⟩
  rw [hE] at h
  rcases exc with _ | e
  · rfl
  · cases e
    · rfl
    · simp at h

/-- Specification-side fold for all-matches enumeration: the visible,
matching handles in desktop order. -/
def collectAll (patterns : List Pattern) : List Window → List Nat
  | [] => []
  | w :: ws =>
    (if w.visible && matchesAny patterns w.title then [w.hwnd] else []) ++
      collectAll patterns ws

/-- In all-matches mode the accumulator is threaded through unchanged and no
exception is raised. -/
lemma enumWindowsAux_true_eq (patterns : List Pattern) :
    ∀ (desktop : List Window) (acc : List Nat),
      enumWindowsAux patterns true desktop acc =
        (acc ++ collectAll patterns desktop, none) := by
  intro desktop
  induction desktop with
  | nil => intro acc; simp [enumWindowsAux, collectAll]
  | cons w ws ih =>
    intro acc
    by_cases hv : w.visible
    · by_cases hm : matchesAny patterns w.title
      · simp [enumWindowsAux, collectAll, hv, hm, ih]
      · simp [enumWindowsAux, collectAll, hv, hm, ih]
    · simp [enumWindowsAux, collectAll, hv, ih]

/-- The all-matches result is the specification-side fold. -/
lemma getWindowsList_true_eq (patterns : List Pattern) (desktop : List Window) :
    getWindowsList patterns true desktop = collectAll patterns desktop := by
  simp [getWindowsList, enumWindowsAux_true_eq]

/-- One enumeration step under all-matches mode. -/
lemma getWindowsList_true_cons (patterns : List Pattern) (w : Window) (ws : List Window) :
    getWindowsList patterns true (w :: ws) =
      (if w.visible && matchesAny patterns w.title then [w.hwnd] else []) ++
        getWindowsList patterns true ws := by
  rw [getWindowsList_true_eq, getWindowsList_true_eq, collectAll]

/-- Membership in the all-matches result: exactly the visible windows whose
titles satisfy some pattern. -/
lemma mem_getWindowsList_true (patterns : List Pattern) (desktop : List Window) (h : Nat) :
    h ∈ getWindowsList patterns true desktop ↔
      ∃ w ∈ desktop, w.hwnd = h ∧ w.visible = true ∧ matchesAny patterns w.title = true := by
  rw [getWindowsList_true_eq]
  induction desktop with
  | nil => simp [collectAll]
  | cons w ws ih =>
    by_cases hv : w.visible
    · by_cases hm : matchesAny patterns w.title
      · simp only [collectAll, hv, hm]
        simp [ih]
        constructor
        · rintro (rfl | hmem)
          · exact Or.inl ⟨rfl, hv, hm⟩
          · exact Or.inr hmem
        · rintro (⟨rfl, _, _⟩ | hmem)
          · exact Or.inl rfl
          · exact Or.inr hmem
      · simp [collectAll, hv, hm, ih]
    · simp [collectAll, hv, ih]

/-- The all-matches result is a sublist of the desktop's handles, in
enumeration order. -/
lemma getWindowsList_true_sublist (patterns : List Pattern) (desktop : List Window) :
    (getWindowsList patterns true desktop).Sublist (desktop.map Window.hwnd) := by
  rw [getWindowsList_true_eq]
  induction desktop with
  | nil => simp [collectAll]
  | cons w ws ih =>
    by_cases hv : w.visible
    · by_cases hm : matchesAny patterns w.title
      · simpa [collectAll, hv, hm] using ih.cons₂ w.hwnd
      · simpa [collectAll, hv, hm] using ih.cons w.hwnd
    · simpa [collectAll, hv] using ih.cons w.hwnd

/-- An empty pattern set matches no title. -/
lemma matchesAny_nil (title : String) : matchesAny [] title = false := rfl

/-- One enumeration step under first-match mode. -/
lemma getWindowsList_false_cons (patterns : List Pattern) (w : Window) (ws : List Window) :
    getWindowsList patterns false (w :: ws) =
      if w.visible && matchesAny patterns w.title then [w.hwnd]
      else getWindowsList patterns false ws := by
  by_cases hv : w.visible
  · by_cases hm : matchesAny patterns w.title
    · simp [getWindowsList, enumWindowsAux, hv, hm]
    · simp [getWindowsList, enumWindowsAux, hv, hm]
  · simp [getWindowsList, enumWindowsAux, hv]

/-- First-match mode returns the first element of the all-matches result. -/
lemma getWindowsList_false_take (patterns : List Pattern) (desktop : List Window) :
    getWindowsList patterns false desktop = (getWindowsList patterns true desktop).take 1 := by
  induction desktop with
  | nil => rfl
  | cons w ws ih =>
    rw [getWindowsList_false_cons, getWindowsList_true_cons]
    by_cases hv : w.visible
    · by_cases hm : matchesAny patterns w.title
      · simp [hv, hm]
      · simp [hv, hm, ih]
    · simp [hv, ih]

/-- Under first-match mode, windows after the first match are never consulted. -/
lemma getWindowsList_false_stops (patterns : List Pattern) (w : Window)
    (hv : w.visible = true) (hm : matchesAny patterns w.title = true) :
    ∀ pre suf : List Window,
      getWindowsList patterns false (pre ++ w :: suf) =
        getWindowsList patterns false (pre ++ [w]) := by
  intro pre
  induction pre with
  | nil => intro suf; simp [getWindowsList_false_cons, hv, hm]
  | cons p pre ih =>
    intro suf
    simp only [List.cons_append, getWindowsList_false_cons]
    split_ifs
    · rfl
    · exact ih suf

/-! ## Claims about WindowEnumerator -/

/-- Claim C10: the `StopIteration` used for early exit under first-match mode
is always caught inside `get_windows`: for every pattern set, policy and
desktop on which the enumeration facility itself succeeds, `get_windows`
returns a list rather than propagating an exception. -/
theorem c10_no_exception_escape (patterns : List Pattern) (allMatches : Bool)
    (desktop : List Window) :
    get_windows patterns allMatches desktop =
      Except.ok (getWindowsList patterns allMatches desktop) :=
  get_windows_eq_ok patterns allMatches desktop

/-- Claim C4: under the all-matches policy a handle is returned iff some
visible desktop window carries it and its title satisfies at least one
pattern; when desktop handles are unique the result has no duplicates; and
with an empty pattern set the result is the empty list, without error. -/
theorem c4_enumerate_all (patterns : List Pattern) (desktop : List Window) :
    (∀ h : Nat, h ∈ getWindowsList patterns true desktop ↔
      ∃ w ∈ desktop, w.hwnd = h ∧ w.visible = true ∧ matchesAny patterns w.title = true) ∧
    ((desktop.map Window.hwnd).Nodup → (getWindowsList patterns true desktop).Nodup) ∧
    get_windows [] true desktop = Except.ok [] := by
  refine ⟨fun h => mem_getWindowsList_true patterns desktop h,
    fun hnd => hnd.sublist (getWindowsList_true_sublist patterns desktop), ?_⟩
  rw [get_windows_eq_ok]
  have : getWindowsList [] true desktop = [] := by
    induction desktop with
    | nil => rfl
    | cons w ws ih => rw [getWindowsList_true_cons]; simp [matchesAny_nil, ih]
  rw [this]

/-- Claim C4, witnessed on a concrete desktop of two matching windows. -/
theorem c4_enumerate_all_witness :
    ((([wOther, wSec].map Window.hwnd).Nodup ∧ (getWindowsList ps1 true [wOther, wSec]).Nodup) ∧
      ((1 : Nat) ∈ getWindowsList ps1 true [wOther, wSec] ↔
        ∃ w ∈ [wOther, wSec], w.hwnd = 1 ∧ w.visible = true ∧
          matchesAny ps1 w.title = true)) ∧
    get_windows [] true [wOther, wSec] = Except.ok [] :=
  ⟨⟨⟨by decide, (c4_enumerate_all ps1 [wOther, wSec]).2.1 (by decide)⟩,
    (c4_enumerate_all ps1 [wOther, wSec]).1 1⟩,
    (c4_enumerate_all ps1 [wOther, wSec]).2.2⟩

/-- Claim C5: under the first-only policy the result has at most one element;
a singleton result's element also occurs in the all-matches result; and the
enumeration stops at the first matching candidate, so windows after it never
affect the result. -/
theorem c5_first_only (patterns : List Pattern) (desktop : List Window) :
    (getWindowsList patterns false desktop).length ≤ 1 ∧
    (∀ h : Nat, getWindowsList patterns false desktop = [h] →
      h ∈ getWindowsList patterns true desktop) ∧
    (∀ (pre suf : List Window) (w : Window), w.visible = true →
      matchesAny patterns w.title = true →
      getWindowsList patterns false (pre ++ w :: suf) =
        getWindowsList patterns false (pre ++ [w])) := by
  refine ⟨?_, ?_, ?_⟩
  · rw [getWindowsList_false_take]
    simp
  · intro h hEq
    have hmem : h ∈ (getWindowsList patterns true desktop).take 1 := by
      rw [← getWindowsList_false_take, hEq]; simp
    exact List.take_subset _ _ hmem
  · intro pre suf w hv hm
    exact getWindowsList_false_stops patterns w hv hm pre suf

/-- Claim C5, witnessed on a concrete desktop where the first window matches. -/
theorem c5_first_only_witness :
    (getWindowsList ps1 false [wOther, wSec] = [2] ∧
      (2 : Nat) ∈ getWindowsList ps1 true [wOther, wSec]) ∧
    (wOther.visible = true ∧ matchesAny ps1 wOther.title = true) ∧
    getWindowsList ps1 false ([] ++ wOther :: [wSec]) =
      getWindowsList ps1 false ([] ++ [wOther]) :=
  ⟨⟨rfl, (c5_first_only ps1 [wOther, wSec]).2.1 2 rfl⟩,
    ⟨rfl, rfl⟩,
    (c5_first_only ps1 [wOther, wSec]).2.2 [] [wSec] wOther rfl rfl⟩

/-! ## Claims about patterns and the transitioner -/

/-- Claim C9: the pattern "Game" compiled case-insensitively matches the title
"my game window"; compiled case-sensitively it does not; and the
case-sensitivity flag is applied uniformly to every compiled pattern. -/
theorem c9_case_insensitivity :
    Pattern.search { raw := "Game", ignoreCase := true } "my game window" = true ∧
    Pattern.search { raw := "Game", ignoreCase := false } "my game window" = false ∧
    ∀ (rawPatterns : List String) (caseInsensitive : Bool),
      (buildPatternSet rawPatterns caseInsensitive).all
        (fun p => p.ignoreCase == caseInsensitive) = true := by
  refine ⟨by decide, by decide, ?_⟩
  intro raws ci
  induction raws with
  | nil => rfl
  | cons r rs ih => simp [buildPatternSet] at ih ⊢

/-- Claim C6: a successful transition leaves the window's style equal to the
fixed constant `BORDERLESS_STYLE` (visible, popup and clip-children bits), and
the whole transition is independent of the window's previous style bits. -/
theorem c6_style_overwrite (monitors : List Monitor) (w w' : Window) :
    BORDERLESS_STYLE = (WS_VISIBLE ||| WS_POPUP ||| WS_CLIPCHILDREN) ∧
    (make_fullscreen monitors w = Except.ok w' → w'.style = BORDERLESS_STYLE) ∧
    (∀ s : Nat, make_fullscreen monitors { w with style := s } =
      make_fullscreen monitors w) := by
  refine ⟨rfl, ?_, fun s => rfl⟩
  intro hok
  simp only [make_fullscreen] at hok
  cases hmon : get_monitor monitors { w with style := BORDERLESS_STYLE } with
  | none => rw [hmon] at hok; exact absurd hok (by simp)
  | some m =>
    rw [hmon] at hok
    simp only [Except.ok.injEq] at hok
    subst hok
    rfl

/-- Claim C6, witnessed on the concrete two-monitor desktop. -/
theorem c6_style_overwrite_witness :
    make_fullscreen mons2 wSec = Except.ok wAfter1 ∧
    wAfter1.style = BORDERLESS_STYLE :=
  ⟨rfl, (c6_style_overwrite mons2 wSec wAfter1).2.1 rfl⟩

/-- Claim C1 fails on the code: on the secondary monitor (2000, 0)-(2800, 600),
the window is moved to the absolute desktop origin and sized by the monitor
rectangle's right and bottom edges, so its final rectangle
(0, 0)-(2800, 600) is not the resolved monitor's rectangle. -/
theorem c1_geometry_code_bug :
    get_monitor mons2 wSec = some monSec ∧
    make_fullscreen mons2 wSec = Except.ok wAfter1 ∧
    wAfter1.rect ≠ monSec.rect :=
  ⟨rfl, rfl, by decide⟩

/-- Claim C2 fails as stated: in `make_fullscreen` the style write (line 63)
precedes the monitor query (line 64), so the monitor is not resolved strictly
before the style mutation. -/
theorem c2_resolution_order_counterexample :
    make_fullscreen_trace mons2 wSec =
      [Event.setStyle, Event.resolveMonitor, Event.setGeometry] ∧
    ¬ ((make_fullscreen_trace mons2 wSec).indexOf Event.resolveMonitor <
        (make_fullscreen_trace mons2 wSec).indexOf Event.setStyle) :=
  ⟨rfl, by decide⟩

/-- Claim C2 amended: for every monitor configuration and window, the monitor
is resolved strictly before the geometry mutation but strictly after the style
mutation. -/
theorem c2_resolution_order_amended (monitors : List Monitor) (w : Window) :
    (make_fullscreen_trace monitors w).indexOf Event.setStyle <
      (make_fullscreen_trace monitors w).indexOf Event.resolveMonitor ∧
    (make_fullscreen_trace monitors w).indexOf Event.resolveMonitor <
      (make_fullscreen_trace monitors w).indexOf Event.setGeometry := by
  rcases hmon : get_monitor monitors { w with style := BORDERLESS_STYLE } with _ | m <;>
    simp [make_fullscreen_trace, hmon]

/-- Claim C3 fails on the code: `main` parses the `-d` flag but never consults
it and never calls `strip_decorations`, so with `remove_decorations = true`
the matched window's menu survives the whole run untouched (whereas
`strip_decorations` would have removed it). -/
theorem c3_decorations_never_stripped :
    argsD.remove_decorations = true ∧
    strip_decorations wSec ≠ wSec ∧
    main argsD [wSec] mons2 = ([wAfter1], none) ∧
    wAfter1.menu = wSec.menu :=
  ⟨rfl, by decide, rfl, rfl⟩

/-- Claim C7 fails on the code: transitioning the window on the secondary
monitor twice is not idempotent, because the first call moves it to the
absolute desktop origin, so the second call resolves the primary monitor and
produces a different rectangle. -/
theorem c7_idempotence_code_bug :
    make_fullscreen mons2 wSec = Except.ok wAfter1 ∧
    make_fullscreen mons2 wAfter1 = Except.ok wAfter2 ∧
    wAfter2.style = wAfter1.style ∧
    wAfter2.rect ≠ wAfter1.rect :=
  ⟨rfl, rfl, rfl, by decide⟩

/-- `wOther` after `make_fullscreen` on `mons2`: borderless, sized by the
primary monitor's edges. -/
def wOtherFs : Window :=
  { hwnd := 2, visible := true, title := "Game", style := BORDERLESS_STYLE,
    rect := { left := 0, top := 0, right := 1920, bottom := 1080 }, menu := none }

/-- Claim C8 fails on the code: a `NotFound` failure on the stale handle 999
aborts the driver loop, so the remaining matched window 2 is left untouched
even though its transition would have succeeded and changed it. -/
theorem c8_batch_counterexample :
    make_fullscreen_hwnd mons2 [wOther] 999 = Except.error Win32Error.notFound ∧
    transitionAll mons2 [999, 2] [wOther] = ([wOther], some Win32Error.notFound) ∧
    make_fullscreen_hwnd mons2 [wOther] 2 = Except.ok [wOtherFs] ∧
    [wOtherFs] ≠ [wOther] :=
  ⟨rfl, rfl, rfl, by decide⟩

/-- Claim C8 amended: a transition failure on one window aborts the driver
loop, so none of the remaining matched windows is attempted and the desktop is
returned as it was when the failure occurred. -/
theorem c8_batch_amended (monitors : List Monitor) (desktop : List Window)
    (hwnd : Nat) (rest : List Nat) (e : Win32Error)
    (hfail : make_fullscreen_hwnd monitors desktop hwnd = Except.error e) :
    transitionAll monitors (hwnd :: rest) desktop = (desktop, some e) := by
  simp [transitionAll, hfail]

/-- Claim C8 amended, witnessed on the stale handle 999. -/
theorem c8_batch_amended_witness :
    make_fullscreen_hwnd mons2 [wOther] 999 = Except.error Win32Error.notFound ∧
    transitionAll mons2 [999, 2] [wOther] = ([wOther], some Win32Error.notFound) :=
  ⟨rfl, c8_batch_amended mons2 [wOther] 999 [2] Win32Error.notFound rfl⟩

end Pywwb
